import Mathlib

/-!
Verification development for the `basic_chatbot` repository
(`chatbot/rag_engine.py`, `chatbot/service.py`).

The shallow embedding below translates the retrieval engine (lexical /
TF-IDF variant, the default configured path `RAG_USE_TFIDF=1`), the query
resolver `handle_query`, and the SSE streaming service (`llm_stream`,
`llm_cancel`) into Lean.

Modelling conventions:
* float64 similarity scores are modelled as `ℚ` (only order comparisons
  ever happen to scores in the translated code, and cosine similarities of
  TF-IDF vectors are never NaN, so this is order-faithful);
* Python `or` on strings / options is modelled explicitly (`pyOrS`,
  `effK`), as is Python list slicing (`pySliceTo`) and negative indexing
  (`dfLookup` for `DataFrame.iloc`);
* `np.argsort` (default `kind='quicksort'`, i.e. numpy's introsort over
  index arrays, `aquicksort_`/`aheapsort_` from numpy's `npysort`) is
  ported operation-for-operation as `npArgsort`; its *contract* — it
  returns some permutation of `[0, N)` along which the values are sorted —
  is stated separately as `argsortDescSpec` (phrased for the descending
  composite `np.argsort(-sims)` used at `rag_engine.py:69`);
* the external similarity computation (`TfidfVectorizer.transform` +
  `cosine_similarity`, `rag_engine.py:67-68`) is abstracted by passing the
  per-document score vector `sims` as a parameter: the claims under study
  are about what `retrieve` does with that vector.
-/

/-- A retrieval result as produced by `RAGEngine.retrieve`
(`rag_engine.py:70`): the tuple `(int(i), self.texts[i], float(sims[i]))`. -/
structure RetrievalResult where
  index : Int
  text : String
  score : ℚ
deriving Repr, DecidableEq

/-- One row of the loaded dataframe `self.df` (`rag_engine.py:34-36`).
A field is `none` when the corresponding column is absent from the file;
cell values are modelled as strings. -/
structure Row where
  question : Option String
  answer : Option String
deriving Repr, DecidableEq

/-- A response candidate assembled by `handle_query`
(`rag_engine.py:105`). -/
structure Candidate where
  index : Int
  question : String
  answer : String
  text : String
  score : ℚ
deriving Repr, DecidableEq

/-- The dict returned by `handle_query` (`rag_engine.py:116`):
`{"answer": ..., "match": ..., "score": ..., "candidates": ...}`. -/
structure QueryAnswer where
  answer : String
  matchText : Option String
  score : ℚ
  candidates : List Candidate
deriving Repr, DecidableEq

/-- Python `a or b` for strings (the empty string is falsy). -/
def pyOrS (a b : String) : String :=
  if a = "" then b else a

/-- Effective top-k, `k = top_k or self.top_k` (`rag_engine.py:65`): `None` and `0` are
falsy and fall back to the engine default. -/
def effK : Option Int → Int → Int
  | none, d => d
  | some v, d => if v = 0 then d else v

/-- Python slicing `l[:k]` for an arbitrary integer `k`: a nonnegative
bound takes a prefix, a negative bound drops `|k|` elements from the end
(clamped at zero). -/
def pySliceTo (k : Int) (l : List Nat) : List Nat :=
  if 0 ≤ k then l.take k.toNat else l.take ((l.length : Int) + k).toNat

/-- Strict float64 less-than used by numpy's sort on similarity values
(no NaNs arise from TF-IDF cosine similarity). -/
def qlt (a b : ℚ) : Bool :=
  decide (a < b)

/-- Index swap `INTP_SWAP(*pi, *pj)` on the index array. Out-of-range positions are
left unchanged (`List.set` is total); all positions reached in actual
runs are in range. -/
def lswap (ts : List Nat) (i j : Nat) : List Nat :=
  let x := ts.getD i 0
  let y := ts.getD j 0
  (ts.set i y).set j x

/-- Inner sift loop shared by both phases of numpy's `aheapsort_`
(indices into the segment are 1-based as in the C source: `a = tosort-1`).
Returns the updated index array together with the final hole position
`i`. Fuel bounds the doubling walk down the heap. -/
def hsSiftLoop (v : List ℚ) (lo tmp n : Nat) :
    Nat → List Nat → Nat → Nat → List Nat × Nat
  | 0, ts, i, _ => (ts, i)
  | fuel+1, ts, i, j =>
    if j ≤ n then
      let j' :=
        if j < n && qlt (v.getD (ts.getD (lo+j-1) 0) 0) (v.getD (ts.getD (lo+j) 0) 0)
        then j+1 else j
      if qlt (v.getD tmp 0) (v.getD (ts.getD (lo+j'-1) 0) 0) then
        hsSiftLoop v lo tmp n fuel (ts.set (lo+i-1) (ts.getD (lo+j'-1) 0)) j' (j'+j')
      else (ts, i)
    else (ts, i)

/-- Heapify phase of `aheapsort_`: `for (l = n>>1; l > 0; --l)`. -/
def hsHeapifyLoop (v : List ℚ) (lo n : Nat) : Nat → List Nat → List Nat
  | 0, ts => ts
  | l+1, ts =>
    let tmp := ts.getD (lo + (l+1) - 1) 0
    let r := hsSiftLoop v lo tmp n (n+2) ts (l+1) ((l+1)*2)
    hsHeapifyLoop v lo n l (r.1.set (lo + r.2 - 1) tmp)

/-- Extraction phase of `aheapsort_`: `for (; n > 1;)`. -/
def hsExtractLoop (v : List ℚ) (lo : Nat) : Nat → List Nat → List Nat
  | 0, ts => ts
  | 1, ts => ts
  | n+2, ts =>
    let tmp := ts.getD (lo + (n+2) - 1) 0
    let ts1 := ts.set (lo + (n+2) - 1) (ts.getD lo 0)
    let r := hsSiftLoop v lo tmp (n+1) (n+3) ts1 1 2
    hsExtractLoop v lo (n+1) (r.1.set (lo + r.2 - 1) tmp)

/-- numpy `aheapsort_` on the segment of length `n` starting at `lo`. -/
def aheapsort (v : List ℚ) (ts : List Nat) (lo n : Nat) : List Nat :=
  hsExtractLoop v lo n (hsHeapifyLoop v lo n (n / 2) ts)

/-- Shift loop of the insertion sort at the end of `aquicksort_`:
`while (pj > pl && LT(vp, v[*pk])) *pj-- = *pk--;`. -/
def insShiftLoop (v : List ℚ) (pl : Nat) (vp : ℚ) :
    Nat → List Nat → Nat → List Nat × Nat
  | 0, ts, pj => (ts, pj)
  | fuel+1, ts, pj =>
    if pl < pj && qlt vp (v.getD (ts.getD (pj-1) 0) 0) then
      insShiftLoop v pl vp fuel (ts.set pj (ts.getD (pj-1) 0)) (pj-1)
    else (ts, pj)

/-- Insertion sort over the segment `[pl, pr]`:
`for (pi = pl + 1; pi <= pr; ++pi)`. -/
def insSortLoop (v : List ℚ) (pl pr : Nat) : Nat → Nat → List Nat → List Nat
  | 0, _, ts => ts
  | fuel+1, pi, ts =>
    if pi ≤ pr then
      let vi := ts.getD pi 0
      let r := insShiftLoop v pl (v.getD vi 0) (pi+1) ts pi
      insSortLoop v pl pr fuel (pi+1) (r.1.set r.2 vi)
    else ts

/-- Upward scan `do ++pi; while (LT(v[*pi], vp));` — call with the pre-incremented
position. -/
def scanUpLoop (v : List ℚ) (ts : List Nat) (vp : ℚ) : Nat → Nat → Nat
  | 0, pi => pi
  | fuel+1, pi =>
    if qlt (v.getD (ts.getD pi 0) 0) vp then scanUpLoop v ts vp fuel (pi+1) else pi

/-- Downward scan `do --pj; while (LT(vp, v[*pj]));` — call with the pre-decremented
position. -/
def scanDownLoop (v : List ℚ) (ts : List Nat) (vp : ℚ) : Nat → Nat → Nat
  | 0, pj => pj
  | fuel+1, pj =>
    if qlt vp (v.getD (ts.getD pj 0) 0) then scanDownLoop v ts vp fuel (pj-1) else pj

/-- Hoare partition exchange loop of `aquicksort_` (the inner `for (;;)`
after the median-of-three pivot has been parked at `pr-1`). Returns the
updated index array and the crossing point `pi`. -/
def partitionLoop (v : List ℚ) (vp : ℚ) (fuelScan : Nat) :
    Nat → List Nat → Nat → Nat → List Nat × Nat
  | 0, ts, pi, _ => (ts, pi)
  | fuel+1, ts, pi, pj =>
    let pi' := scanUpLoop v ts vp fuelScan (pi+1)
    let pj' := scanDownLoop v ts vp fuelScan (pj-1)
    if pj' ≤ pi' then (ts, pi')
    else partitionLoop v vp fuelScan fuel (lswap ts pi' pj') pi' pj'

/-- Main loop of numpy's `aquicksort_`: working segment `[pl, pr]`, an
explicit stack of deferred segments, and the shared introsort depth
budget `depth` (`depth_limit = npy_get_msb(num) * 2`, decremented per
partition; exhaustion diverts the current segment to `aheapsort_`).
Segments of at most `SMALL_QUICKSORT = 15` elements are insertion-sorted.
Fuel bounds the total number of loop iterations. -/
def aqsLoop (v : List ℚ) : Nat → List Nat → Nat → Nat → List (Nat × Nat) → Int → List Nat
  | 0, ts, _, _, _, _ => ts
  | fuel+1, ts, pl, pr, stack, depth =>
    if 15 < pr - pl then
      if depth < 0 then
        let ts1 := aheapsort v ts pl (pr - pl + 1)
        match stack with
        | [] => ts1
        | (pl', pr') :: rest => aqsLoop v fuel ts1 pl' pr' rest (depth - 1)
      else
        let pm := pl + (pr - pl) / 2
        let ts1 := if qlt (v.getD (ts.getD pm 0) 0) (v.getD (ts.getD pl 0) 0) then lswap ts pm pl else ts
        let ts2 := if qlt (v.getD (ts1.getD pr 0) 0) (v.getD (ts1.getD pm 0) 0) then lswap ts1 pr pm else ts1
        let ts3 := if qlt (v.getD (ts2.getD pm 0) 0) (v.getD (ts2.getD pl 0) 0) then lswap ts2 pm pl else ts2
        let vp := v.getD (ts3.getD pm 0) 0
        let ts4 := lswap ts3 pm (pr - 1)
        let r := partitionLoop v vp (ts4.length + 2) (ts4.length + 2) ts4 pl (pr - 1)
        let pi := r.2
        let ts5 := lswap r.1 pi (pr - 1)
        if pi - pl < pr - pi then
          aqsLoop v fuel ts5 pl (pi - 1) ((pi+1, pr) :: stack) (depth - 1)
        else
          aqsLoop v fuel ts5 (pi+1) pr ((pl, pi-1) :: stack) (depth - 1)
    else
      let ts1 := insSortLoop v pl pr (pr + 2 - pl) (pl+1) ts
      match stack with
      | [] => ts1
      | (pl', pr') :: rest => aqsLoop v fuel ts1 pl' pr' rest depth

/-- Port of `np.argsort(v)` with the default `kind='quicksort'` (numpy introsort
over an index array, ported from numpy's `npysort` `aquicksort_`).
Ascending; the order of equal elements is whatever the partition
exchanges produce — the algorithm is not stable. -/
def npArgsort (v : List ℚ) : List Nat :=
  let num := v.length
  if num = 0 then []
  else aqsLoop v (2*num + 4) (List.range num) 0 (num - 1) [] (2 * Nat.log2 num)

/-- The documented contract of the `np.argsort(-sims)` call at
`rag_engine.py:69`, phrased over the original (un-negated) score vector:
`p` enumerates all source indices `[0, N)` exactly once, in an order
along which the scores are non-increasing. Tie order is *not* part of
the contract. -/
def argsortDescSpec (sims : List ℚ) (p : List Nat) : Prop :=
  p.Perm (List.range sims.length) ∧
  p.Pairwise (fun i j => sims.getD j 0 ≤ sims.getD i 0)

/-- Body of `RAGEngine.retrieve`, TF-IDF branch (`rag_engine.py:64-70`), with the
index permutation `p` (the value of `np.argsort(-sims)`) passed
explicitly: `k = top_k or self.top_k; top_indices = p[:k];
return [(int(i), self.texts[i], float(sims[i])) for i in top_indices]`. -/
def retrieveTfidfWith (texts : List String) (sims : List ℚ) (p : List Nat)
    (top_k : Option Int) (dflt : Int) : List RetrievalResult :=
  (pySliceTo (effK top_k dflt) p).map
    (fun (i : Nat) => { index := (i : Int), text := texts.getD i "", score := sims.getD i 0 })

/-- Full `RAGEngine.retrieve`, TF-IDF branch, with `np.argsort(-sims)`
computed by the ported numpy introsort. -/
def retrieveTfidf (texts : List String) (sims : List ℚ)
    (top_k : Option Int) (dflt : Int) : List RetrievalResult :=
  retrieveTfidfWith texts sims (npArgsort (sims.map (fun s => -s))) top_k dflt

/-- Row lookup `eng.df.iloc[int(idx)]` (`rag_engine.py:100`): pandas positional row
access, which follows Python indexing — `idx ∈ [0, N)` from the front,
`idx ∈ [-N, 0)` from the back, anything else raises `IndexError`
(modelled as `none`). -/
def dfLookup (df : List Row) (idx : Int) : Option Row :=
  if 0 ≤ idx ∧ idx < (df.length : Int) then
    df.get? idx.toNat
  else if -(df.length : Int) ≤ idx ∧ idx < 0 then
    df.get? ((df.length : Int) + idx).toNat
  else
    none

/-- The per-result body of the `for idx, text, score in results` loop in
`handle_query` (`rag_engine.py:97-105`): look the row up by position,
coalescing a missing column to `""`; on a lookup failure (`except`) both
`question` and `answer` degrade to `""`. -/
def mkCandidate (df : List Row) (r : RetrievalResult) : Candidate :=
  match dfLookup df r.index with
  | some row =>
      { index := r.index, question := row.question.getD "",
        answer := row.answer.getD "", text := r.text, score := r.score }
  | none =>
      { index := r.index, question := "", answer := "",
        text := r.text, score := r.score }

/-- The answer/match/score derivation of `handle_query`
(`rag_engine.py:106-116`): `best = candidates[0]`,
`answer = best.get("answer") or best.get("text") or ""`,
`match = best.get("text")`, `score = best.get("score", 0.0)`; with no
candidates, `("", None, 0.0)`. -/
def queryAnswerOf (cands : List Candidate) : QueryAnswer :=
  match cands with
  | [] => { answer := "", matchText := none, score := 0, candidates := [] }
  | best :: _ =>
      { answer := pyOrS best.answer (pyOrS best.text ""),
        matchText := some best.text, score := best.score, candidates := cands }

/-- Candidate assembly and answer derivation of `handle_query`
(`rag_engine.py:96-116`), parameterised by the retrieval outcome
`results` (the list returned by `eng.retrieve`). -/
def handleQueryResults (df : List Row) (results : List RetrievalResult) : QueryAnswer :=
  queryAnswerOf (results.map (mkCandidate df))

/-- Characters matched by `\w` in sklearn's default
`token_pattern = r"(?u)\b\w\w+\b"`. -/
def isTokenChar (c : Char) : Bool :=
  c.isAlphanum || c = '_'

/-- Split a character list into maximal runs of token characters. -/
def splitRunsAux : List Char → List Char → List (List Char)
  | [], acc => if acc = [] then [] else [acc.reverse]
  | c :: rest, acc =>
    if isTokenChar c then splitRunsAux rest (c :: acc)
    else (if acc = [] then [] else [acc.reverse]) ++ splitRunsAux rest []

/-- sklearn `TfidfVectorizer` default tokenization: lowercase, then keep
the maximal word-character runs of length at least two. -/
def sklearnTokens (s : String) : List String :=
  ((splitRunsAux s.toLower.data []).filter (fun t => 2 ≤ t.length)).map
    (fun t => String.mk t)

/-- Unigrams and space-joined bigrams — `ngram_range=(1,2)` as configured
at `rag_engine.py:48`. -/
def ngrams12 : List String → List String
  | [] => []
  | [t] => [t]
  | t1 :: t2 :: rest => t1 :: (t1 ++ " " ++ t2) :: ngrams12 (t2 :: rest)

/-- The vocabulary `TfidfVectorizer.fit_transform` extracts from the
corpus texts (term list, deduplicated). -/
def tfidfVocab (docs : List String) : List String :=
  ((docs.map (fun d => ngrams12 (sklearnTokens d))).flatten).dedup

/-- Failure modes of `RAGEngine.__init__`. `emptyVocabulary` is the
`ValueError` sklearn raises from `fit_transform` when no term can be
extracted — in particular for a corpus of zero records. -/
inductive BuildError
  | emptyVocabulary
deriving Repr, DecidableEq

/-- The state `_build_tfidf` leaves on the engine (`rag_engine.py:47-50`):
a fitted vectorizer vocabulary and the document-term matrix, the latter
abstracted to its row count. -/
structure TfidfModel where
  vocab : List String
  nDocs : Nat
deriving Repr, DecidableEq

/-- Fit step `self.vectorizer.fit_transform(self.texts)` (`rag_engine.py:49`):
returns the fitted model, or sklearn's empty-vocabulary `ValueError`. -/
def fit_transform (docs : List String) : Except BuildError TfidfModel :=
  if tfidfVocab docs = [] then Except.error BuildError.emptyVocabulary
  else Except.ok { vocab := tfidfVocab docs, nDocs := docs.length }

/-- The engine state a successful `RAGEngine.__init__` produces
(TF-IDF/lexical variant, the default `RAG_USE_TFIDF=1` path). -/
structure RAGEngineState where
  df : List Row
  texts : List String
  model : TfidfModel
  topK : Int
deriving Repr, DecidableEq

/-- Search texts `self.texts = (df.get('question','').fillna('') + ' ' +
df.get('answer','').fillna('')).tolist()` (`rag_engine.py:38`). -/
def buildTexts (df : List Row) : List String :=
  df.map (fun r => (r.question.getD "") ++ " " ++ (r.answer.getD ""))

/-- Constructor `RAGEngine.__init__` over an already-parsed record list, lexical
variant (`rag_engine.py:21-50`): derive the search texts and fit the
TF-IDF index; any failure of the build aborts construction. -/
def RAGEngine.build (df : List Row) (topK : Int) : Except BuildError RAGEngineState :=
  match fit_transform (buildTexts df) with
  | Except.error e => Except.error e
  | Except.ok m =>
      Except.ok { df := df, texts := buildTexts df, model := m, topK := topK }

/-- The full query path as the service uses it (`rag_engine.py:79-95`):
the lazy singleton forces `RAGEngine` construction on the first query,
so a construction failure surfaces as the query's error; otherwise the
query is resolved over the built engine. The similarity vector `sims`
produced by the fitted vectorizer for the query is passed as a
parameter. -/
def handle_query_total (df : List Row) (sims : List ℚ) (top_k : Option Int) :
    Except BuildError QueryAnswer :=
  match RAGEngine.build df 3 with
  | Except.error e => Except.error e
  | Except.ok eng =>
      Except.ok (handleQueryResults df (retrieveTfidf eng.texts sims top_k eng.topK))

/-- Server-sent events emitted by the `generate()` worker of
`/api/llm/stream` (`service.py:116-158`), tagged by their payload key. -/
inductive StreamEvent
  | chunk (s : String)
  | done
  | cancelled
  | ragError (detail : String)
deriving Repr, DecidableEq

/-- Character chunking `_stream_chunks_chars` (`service.py:95-99`): one chunk per character;
a single empty chunk for empty text. -/
def streamChunksChars (text : String) : List String :=
  (if text.data = [] then [""] else []) ++ text.data.map (fun c => String.mk [c])

/-- The emission loop of `generate()` (`service.py:149-158`): before each
chunk the worker reads the cancellation flag (`cancel_event.is_set()`,
observation `i` of the schedule `cancelAt`); if set it emits a single
`cancelled` event and returns, otherwise it emits the chunk; after the
last chunk it emits `done`. -/
def emitLoop (cancelAt : Nat → Bool) : Nat → List String → List StreamEvent
  | _, [] => [StreamEvent.done]
  | i, c :: rest =>
    if cancelAt i then [StreamEvent.cancelled]
    else StreamEvent.chunk c :: emitLoop cancelAt (i+1) rest

/-- The ollama chat response as `generate()` inspects it
(`service.py:138-142`): either not a dict, or a dict with optional
`message.content` and top-level `content` entries. -/
inductive OllamaResp
  | notDict
  | dict (messageContent : Option String) (topContent : Option String)
deriving Repr, DecidableEq

/-- Extraction `resp.get('message', {}).get('content') or resp.get('content') or ''`
(`service.py:139-142`). -/
def extractAssistant : OllamaResp → String
  | OllamaResp.notDict => ""
  | OllamaResp.dict mc tc => pyOrS (mc.getD "") (pyOrS (tc.getD "") "")

/-- Outcome of the optional refinement step (`service.py:129-146`):
the ollama backend may be absent (`ollama is None`), the chat call may
raise (swallowed by `except Exception: pass`), or it returns a
response. -/
inductive RefinerCall
  | noBackend
  | raises
  | returns (resp : OllamaResp)
deriving Repr, DecidableEq

/-- Lines 126-146 of `service.py`: the answer that will be streamed —
the retrieval fallback, replaced by the assistant content exactly when
the refinement call succeeds and extracts non-empty text
(`if assistant_content: answer = assistant_content`). -/
def refineAnswer (fallback : String) : RefinerCall → String
  | RefinerCall.noBackend => fallback
  | RefinerCall.raises => fallback
  | RefinerCall.returns resp =>
      if extractAssistant resp = "" then fallback else extractAssistant resp

/-- Session registry `_active_streams` (`service.py:30`): request id to the state of its
session's `threading.Event` cancellation flag. -/
def Registry : Type :=
  List (String × Bool)

/-- Deregistration `_active_streams.pop(request_id, None)` (`service.py:160`). -/
def eraseId (reg : Registry) (id : String) : Registry :=
  reg.filter (fun kv => !(kv.1 == id))

/-- Flag set `ev.set()` on the session's event, reflected into the registry. -/
def setFlag (reg : Registry) (id : String) : Registry :=
  reg.map (fun kv => if kv.1 == id then (kv.1, true) else kv)

/-- The whole `generate()` worker of `/api/llm/stream`
(`service.py:116-160`): a failed retrieval yields a single error event;
otherwise the (optionally refined) answer is streamed character-wise
under the cancellation schedule. The `finally` block always removes the
session from the registry. -/
def generate (requestId : String) (ragResult : Except String QueryAnswer)
    (refiner : RefinerCall) (cancelAt : Nat → Bool) (reg : Registry) :
    List StreamEvent × Registry :=
  match ragResult with
  | Except.error e => ([StreamEvent.ragError e], eraseId reg requestId)
  | Except.ok qa =>
      let answer := refineAnswer (pyOrS qa.answer "") refiner
      (emitLoop cancelAt 0 (streamChunksChars answer), eraseId reg requestId)

/-- The three responses of `/api/llm/cancel` (`service.py:170-184`):
`400 {"error": "Missing request_id"}`, `200 {..., 'cancelled': True}`
(the spec's `{accepted: true}`), and `404 {'error': 'unknown request_id'}`
(the spec's `{accepted: false}`). -/
inductive CancelResp
  | badRequest
  | acceptedTrue
  | notFound
deriving Repr, DecidableEq

/-- Endpoint `llm_cancel` (`service.py:170-184`): a missing or falsy (empty)
`request_id` is rejected as malformed; otherwise, if the id is
registered its event is set and the call is accepted, and if not the
call reports the id as unknown, leaving the registry untouched. -/
def llm_cancel (reg : Registry) (request_id : Option String) : Registry × CancelResp :=
  match request_id with
  | none => (reg, CancelResp.badRequest)
  | some id =>
    if id = "" then (reg, CancelResp.badRequest)
    else
      match reg.lookup id with
      | some _ => (setFlag reg id, CancelResp.acceptedTrue)
      | none => (reg, CancelResp.notFound)

/-- Payload text of the chunk events of a stream, in emission order. -/
def chunkPayloads (evs : List StreamEvent) : List String :=
  evs.filterMap (fun e =>
    match e with
    | StreamEvent.chunk s => some s
    | _ => none)

/-- Concatenation of the chunk payloads of a stream. -/
def concatChunks (evs : List StreamEvent) : String :=
  String.mk (((chunkPayloads evs).map String.data).flatten)

/-- Count events satisfying a predicate. -/
def countEv (p : StreamEvent → Bool) (evs : List StreamEvent) : Nat :=
  (evs.filter p).length

/-- Recogniser for `done` events. -/
def isDone : StreamEvent → Bool
  | StreamEvent.done => true
  | _ => false

/-- Recogniser for `cancelled` events. -/
def isCancelled : StreamEvent → Bool
  | StreamEvent.cancelled => true
  | _ => false

/-- Recogniser for chunk events. -/
def isChunk : StreamEvent → Bool
  | StreamEvent.chunk _ => true
  | _ => false

/-! ### Helper lemmas -/

theorem pyOrS_empty_right (a : String) : pyOrS a "" = a := by
  unfold pyOrS
  split
  · simp [*]
  · rfl

theorem pySliceTo_eq_take (k : Int) (l : List Nat) :
    pySliceTo k l = l.take (if 0 ≤ k then k.toNat else ((l.length : Int) + k).toNat) := by
  unfold pySliceTo
  split <;> simp [*]

theorem emitLoop_no_cancel (chunks : List String) (i : Nat) :
    emitLoop (fun _ => false) i chunks = chunks.map StreamEvent.chunk ++ [StreamEvent.done] := by
  induction chunks generalizing i with
  | nil => rfl
  | cons c rest ih => simp [emitLoop, ih]

theorem emitLoop_cancel (cancelAt : Nat → Bool) (chunks : List String) (start i0 : Nat)
    (h1 : cancelAt (start + i0) = true) (h2 : ∀ j, j < i0 → cancelAt (start + j) = false)
    (h3 : i0 < chunks.length) :
    emitLoop cancelAt start chunks
      = (chunks.take i0).map StreamEvent.chunk ++ [StreamEvent.cancelled] := by
  induction chunks generalizing start i0 with
  | nil => simp at h3
  | cons c rest ih =>
    cases i0 with
    | zero =>
      simp only [Nat.add_zero] at h1
      simp [emitLoop, h1]
    | succ i0' =>
      have hc0 : cancelAt start = false := by
        have := h2 0 (Nat.succ_pos i0')
        simpa using this
      have h1' : cancelAt (start + 1 + i0') = true := by
        have : start + 1 + i0' = start + (i0' + 1) := by omega
        rw [this]
        exact h1
      have h2' : ∀ j, j < i0' → cancelAt (start + 1 + j) = false := by
        intro j hj
        have : start + 1 + j = start + (j + 1) := by omega
        rw [this]
        exact h2 (j + 1) (by omega)
      have h3' : i0' < rest.length := by
        simpa using h3
      simp [emitLoop, hc0, ih (start + 1) i0' h1' h2' h3']

theorem chunkPayloads_chunks_done (chunks : List String) :
    chunkPayloads (chunks.map StreamEvent.chunk ++ [StreamEvent.done]) = chunks := by
  induction chunks with
  | nil => rfl
  | cons c rest ih => simpa [chunkPayloads, List.filterMap_cons] using ih

theorem flatten_singleton_data (l : List Char) :
    ((l.map (fun c => String.mk [c])).map String.data).flatten = l := by
  induction l with
  | nil => rfl
  | cons c rest ih =>
    rw [List.map_map] at ih ⊢
    simpa using ih

theorem concat_streamChunksChars (s : String) :
    String.mk (((streamChunksChars s).map String.data).flatten) = s := by
  unfold streamChunksChars
  cases s with
  | mk data =>
    cases data with
    | nil => rfl
    | cons c rest =>
      simp only [List.cons_ne_self]
      rw [if_neg (by simp)]
      simp only [List.nil_append]
      rw [flatten_singleton_data]

theorem countEv_map_chunk (p : StreamEvent → Bool) (l : List String)
    (hp : ∀ s, p (StreamEvent.chunk s) = false) :
    countEv p (l.map StreamEvent.chunk) = 0 := by
  induction l with
  | nil => rfl
  | cons c rest ih =>
    simp only [List.map_cons]
    unfold countEv at ih ⊢
    simp [List.filter, hp, ih]

theorem countEv_append (p : StreamEvent → Bool) (l1 l2 : List StreamEvent) :
    countEv p (l1 ++ l2) = countEv p l1 + countEv p l2 := by
  unfold countEv
  simp [List.filter_append]

theorem lookup_eraseId (reg : Registry) (id : String) :
    List.lookup id (eraseId reg id) = none := by
  induction reg with
  | nil => rfl
  | cons kv rest ih =>
    obtain ⟨k, b⟩ := kv
    by_cases h : k = id
    · simpa [eraseId, List.filter_cons, h] using ih
    · have hbe : (id == k) = false := by
        simp
        exact fun he => h he.symm
      have hbk : (!(k == id)) = true := by
        simp [h]
      simp only [eraseId, List.filter_cons, hbk, if_true]
      simp only [List.lookup, hbe]
      exact ih

theorem lookup_setFlag (reg : Registry) (id : String)
    (h : (List.lookup id reg).isSome) :
    List.lookup id (setFlag reg id) = some true := by
  induction reg with
  | nil => simp [List.lookup] at h
  | cons kv rest ih =>
    obtain ⟨k, b⟩ := kv
    by_cases hk : id = k
    · have hbe : (k == id) = true := by
        simp [hk.symm]
      have hbe' : (id == k) = true := by
        simp [hk]
      simp only [setFlag, List.map_cons, hbe, if_true]
      simp only [List.lookup, hbe']
    · have hbe : (k == id) = false := by
        simp
        exact fun he => hk he.symm
      have hbe' : (id == k) = false := by
        simpa using hk
      simp only [List.lookup, hbe'] at h
      simp only [setFlag, List.map_cons, hbe, if_false]
      simp only [List.lookup, hbe']
      exact ih h

theorem concat_generate_ok (requestId : String) (qa : QueryAnswer)
    (refiner : RefinerCall) (reg : Registry) :
    (generate requestId (Except.ok qa) refiner (fun _ => false) reg).1
      = (streamChunksChars (refineAnswer (pyOrS qa.answer "") refiner)).map StreamEvent.chunk
        ++ [StreamEvent.done] := by
  show emitLoop (fun _ => false) 0
      (streamChunksChars (refineAnswer (pyOrS qa.answer "") refiner)) = _
  exact emitLoop_no_cancel _ _

theorem concatChunks_generate_ok (requestId : String) (qa : QueryAnswer)
    (refiner : RefinerCall) (reg : Registry) :
    concatChunks ((generate requestId (Except.ok qa) refiner (fun _ => false) reg).1)
      = refineAnswer (pyOrS qa.answer "") refiner := by
  rw [concat_generate_ok]
  unfold concatChunks
  rw [chunkPayloads_chunks_done]
  exact concat_streamChunksChars _

/-! ### Claim C1 -/

/-- C1 counterexample: the claim quantifies over *every* `k`, but for
`k = 0` the falsy-substitution `k = top_k or self.top_k`
(`rag_engine.py:65`) replaces `k` by the engine default `3`, so on a
1-record corpus `retrieve(query, 0)` returns 1 result while
`min(0, 1) = 0` results were claimed. -/
theorem retrieve_k_zero_violates_bound :
    ¬ ((((retrieveTfidf ["entry one"] [0] (some 0) 3).length : Int) ≤ min 0 1) ∧
       ∀ r ∈ retrieveTfidf ["entry one"] [0] (some 0) 3,
         0 ≤ r.index ∧ r.index < 1) := by
  intro hc
  exact absurd hc.1 (by decide)

/-- C1 (amended): for every corpus of `N ≥ 1` records and every `k ≥ 1`,
`retrieve(query, k)` returns at most `min(k, N)` results, each carrying
an index in `[0, N)`. Stated over the lexical (TF-IDF) branch with the
`np.argsort(-sims)` value `p` constrained by the sort's contract
(`argsortDescSpec`); `N = sims.length` is the corpus size. -/
theorem retrieve_k_bound (texts : List String) (sims : List ℚ) (p : List Nat) (k : Int)
    (hp : argsortDescSpec sims p) (hk : 1 ≤ k) :
    ((retrieveTfidfWith texts sims p (some k) 3).length : Int) ≤ min k (sims.length : Int) ∧
    ∀ r ∈ retrieveTfidfWith texts sims p (some k) 3,
      0 ≤ r.index ∧ r.index < (sims.length : Int) := by
  have hlen : p.length = sims.length := by simpa using hp.1.length_eq
  have heff : effK (some k) 3 = k := by
    show (if k = 0 then (3:Int) else k) = k
    rw [if_neg (by omega)]
  constructor
  · unfold retrieveTfidfWith
    rw [List.length_map, heff, pySliceTo_eq_take, if_pos (by omega), List.length_take, hlen]
    rw [Nat.cast_min, Int.toNat_of_nonneg (by omega)]
  · intro r hr
    unfold retrieveTfidfWith at hr
    rw [List.mem_map] at hr
    obtain ⟨i, hi, hri⟩ := hr
    have hip : i ∈ p := by
      rw [pySliceTo_eq_take] at hi
      exact List.take_subset _ _ hi
    have hiN : i < sims.length := by
      have := hp.1.mem_iff.mp hip
      simpa using this
    rw [← hri]
    refine ⟨?_, ?_⟩
    · show (0:Int) ≤ (i : Int)
      exact Int.ofNat_nonneg i
    · show (i : Int) < (sims.length : Int)
      exact_mod_cast hiN

/-- C1 witness: a concrete corpus of two records, `k = 1`, with the
argsort contract discharged by evaluation. -/
theorem retrieve_k_bound_witness :
    ((retrieveTfidfWith ["a", "bb"] [(1:ℚ), 0] [0, 1] (some 1) 3).length : Int) ≤
      min 1 (([(1:ℚ), 0].length : Int)) ∧
    ∀ r ∈ retrieveTfidfWith ["a", "bb"] [(1:ℚ), 0] [0, 1] (some 1) 3,
      0 ≤ r.index ∧ r.index < (([(1:ℚ), 0].length : Int)) :=
  retrieve_k_bound ["a", "bb"] [(1:ℚ), 0] [0, 1] 1 ⟨by decide, by decide⟩ (by decide)

/-! ### Claim C2 -/

set_option maxRecDepth 16384 in
/-- C2 counterexample: on a 17-record corpus with an all-ties score
vector (an out-of-vocabulary query has cosine similarity `0.0` with
every document), `np.argsort(-sims)` — numpy's default introsort, which
is not stable — returns the permutation
`[0, 14, 13, 12, 11, 10, 9, 15, 8, 6, 5, 4, 3, 2, 1, 7, 16]`, so the
results of `retrieve` are *not* tie-broken by ascending source index
(the result at position 1 has index 14, the one at position 2 has
index 13, with equal scores). -/
theorem retrieve_tiebreak_fails :
    ¬ (retrieveTfidf (List.replicate 17 "doc") (List.replicate 17 (0:ℚ)) (some 17) 3).Pairwise
        (fun a b => b.score < a.score ∨ (a.score = b.score ∧ a.index < b.index)) := by
  intro hpair
  have e : retrieveTfidf (List.replicate 17 "doc") (List.replicate 17 (0:ℚ)) (some 17) 3
      = [0, 14, 13, 12, 11, 10, 9, 15, 8, 6, 5, 4, 3, 2, 1, 7, 16].map
          (fun (i : Nat) =>
            { index := (i : Int), text := "doc", score := (0:ℚ) }) := by
    decide
  rw [e, List.pairwise_iff_get] at hpair
  have h12 := hpair ⟨1, by decide⟩ ⟨2, by decide⟩ (by decide)
  revert h12
  decide

/-- C2 (amended): the sequence returned by `retrieve` is sorted in
non-increasing score order; the order among equal scores is whatever the
underlying (default-quicksort, unstable) argsort produced — there is no
explicit source-index tiebreak in the code. Stated over the lexical
branch with the argsort value `p` constrained by the sort's contract. -/
theorem retrieve_sorted_nonincreasing (texts : List String) (sims : List ℚ) (p : List Nat)
    (top_k : Option Int) (dflt : Int) (h : argsortDescSpec sims p) :
    (retrieveTfidfWith texts sims p top_k dflt).Pairwise (fun a b => b.score ≤ a.score) := by
  unfold retrieveTfidfWith
  rw [List.pairwise_map, pySliceTo_eq_take]
  exact h.2.sublist (List.take_sublist _ _)

/-- C2 witness: a concrete two-record retrieval, contract discharged by
evaluation. -/
theorem retrieve_sorted_witness :
    (retrieveTfidfWith ["a", "bb"] [(1:ℚ), 0] [0, 1] (some 2) 3).Pairwise
      (fun a b => b.score ≤ a.score) :=
  retrieve_sorted_nonincreasing ["a", "bb"] [(1:ℚ), 0] [0, 1] (some 2) 3
    ⟨by decide, by decide⟩

/-! ### Claim C10 -/

/-- C10: for a corpus of `N ≥ 1` records, `retrieve` with `top_k = 0` or
`top_k = None` does not return an empty sequence: the falsy substitution
`k = top_k or self.top_k` (`rag_engine.py:65`) replaces it by the
construction default `3`, so `min(3, N)` results come back. -/
theorem retrieve_topk_zero_defaults (texts : List String) (sims : List ℚ) (p : List Nat)
    (tk : Option Int) (hp : argsortDescSpec sims p) (hN : 1 ≤ sims.length)
    (htk : tk = none ∨ tk = some 0) :
    (retrieveTfidfWith texts sims p tk 3).length = min 3 sims.length ∧
    retrieveTfidfWith texts sims p tk 3 ≠ [] := by
  have hlen : p.length = sims.length := by simpa using hp.1.length_eq
  have heff : effK tk 3 = 3 := by
    rcases htk with h | h <;> subst h <;> rfl
  have hL : (retrieveTfidfWith texts sims p tk 3).length = min 3 sims.length := by
    unfold retrieveTfidfWith
    rw [List.length_map, heff, pySliceTo_eq_take, if_pos (by omega), List.length_take, hlen]
    rfl
  refine ⟨hL, ?_⟩
  intro hnil
  rw [hnil] at hL
  simp at hL
  omega

/-- C10 witness: one-record corpus queried with `top_k = 0`. -/
theorem retrieve_topk_zero_defaults_witness :
    (retrieveTfidfWith ["only doc"] [(0:ℚ)] [0] (some 0) 3).length = min 3 [(0:ℚ)].length ∧
    retrieveTfidfWith ["only doc"] [(0:ℚ)] [0] (some 0) 3 ≠ [] :=
  retrieve_topk_zero_defaults ["only doc"] [(0:ℚ)] [0] (some 0)
    ⟨by decide, by decide⟩ (by decide) (Or.inr rfl)

/-! ### Claim C3 -/

/-- C3: for every retrieval outcome, the `QueryAnswer` returned by
`handle_query` (`rag_engine.py:106-116`) satisfies the fallback rules:
`answer` is the top candidate's `answer`, else its `text` when that
answer is empty, else `""` when either there are no candidates or both
are empty; `match` is the top candidate's `text` or `None`; `score` is
the top candidate's score or `0.0`. -/
theorem handle_query_fallback_rules (df : List Row) (results : List RetrievalResult) :
    (handleQueryResults df results).candidates = results.map (mkCandidate df) ∧
    (results.map (mkCandidate df) = [] →
      (handleQueryResults df results).answer = "" ∧
      (handleQueryResults df results).matchText = none ∧
      (handleQueryResults df results).score = 0) ∧
    ∀ c cs, results.map (mkCandidate df) = c :: cs →
      (handleQueryResults df results).matchText = some c.text ∧
      (handleQueryResults df results).score = c.score ∧
      ((c.answer ≠ "" ∧ (handleQueryResults df results).answer = c.answer) ∨
       (c.answer = "" ∧ c.text ≠ "" ∧ (handleQueryResults df results).answer = c.text) ∨
       (c.answer = "" ∧ c.text = "" ∧ (handleQueryResults df results).answer = "")) := by
  unfold handleQueryResults
  cases hm : results.map (mkCandidate df) with
  | nil =>
    refine ⟨rfl, fun _ => ⟨rfl, rfl, rfl⟩, ?_⟩
    intro c cs hcc
    exact absurd hcc (by simp)
  | cons c0 cs0 =>
    refine ⟨rfl, fun h => absurd h (by simp), ?_⟩
    intro c cs hcc
    injection hcc with h1 h2
    subst h1
    refine ⟨rfl, rfl, ?_⟩
    by_cases ha : c0.answer = ""
    · by_cases ht : c0.text = ""
      · exact Or.inr (Or.inr ⟨ha, ht, by simp [queryAnswerOf, pyOrS, ha, ht]⟩)
      · exact Or.inr (Or.inl ⟨ha, ht, by simp [queryAnswerOf, pyOrS, ha, ht]⟩)
    · exact Or.inl ⟨ha, by simp [queryAnswerOf, pyOrS, ha]⟩

/-- C3 witness: the spec example corpus
`[{q: "What is X?", a: "X is a widget."}]` with a top-scoring match. -/
theorem handle_query_fallback_rules_witness :
    (handleQueryResults [{ question := some "What is X?", answer := some "X is a widget." }]
        [{ index := 0, text := "What is X? X is a widget.", score := (1:ℚ) }]).answer
      = "X is a widget." ∧
    (handleQueryResults [{ question := some "What is X?", answer := some "X is a widget." }]
        [{ index := 0, text := "What is X? X is a widget.", score := (1:ℚ) }]).matchText
      = some "What is X? X is a widget." ∧
    (handleQueryResults [{ question := some "What is X?", answer := some "X is a widget." }]
        [{ index := 0, text := "What is X? X is a widget.", score := (1:ℚ) }]).score
      = 1 := by
  rcases (handle_query_fallback_rules
      [{ question := some "What is X?", answer := some "X is a widget." }]
      [{ index := 0, text := "What is X? X is a widget.", score := (1:ℚ) }]).2.2
      { index := 0, question := "What is X?", answer := "X is a widget.",
        text := "What is X? X is a widget.", score := (1:ℚ) } []
      (by decide) with ⟨hm, hs, hor⟩
  refine ⟨?_, hm, hs⟩
  rcases hor with ⟨-, ha⟩ | ⟨hfalse, -, -⟩ | ⟨hfalse, -, -⟩
  · exact ha
  · exact absurd hfalse (by decide)
  · exact absurd hfalse (by decide)

/-! ### Claim C4 -/

/-- C4: a `RetrievalResult` whose index does not resolve to a dataframe
row (the `except` at `rag_engine.py:103-104`) degrades to a `Candidate`
with empty `question`/`answer`, and `handle_query` still returns a
complete `QueryAnswer` containing one candidate per result. -/
theorem resolver_tolerates_bad_index (df : List Row) (r : RetrievalResult)
    (results : List RetrievalResult) (h : dfLookup df r.index = none) :
    mkCandidate df r
      = { index := r.index, question := "", answer := "", text := r.text, score := r.score } ∧
    (handleQueryResults df results).candidates = results.map (mkCandidate df) := by
  constructor
  · unfold mkCandidate
    rw [h]
  · unfold handleQueryResults
    cases hm : results.map (mkCandidate df) with
    | nil => rfl
    | cons c0 cs0 => rfl

/-- C4 witness: an empty dataframe with a stale result index `5`. -/
theorem resolver_tolerates_bad_index_witness :
    mkCandidate [] { index := 5, text := "stale", score := (1:ℚ) }
      = { index := 5, question := "", answer := "", text := "stale", score := (1:ℚ) } ∧
    (handleQueryResults [] [{ index := 5, text := "stale", score := (1:ℚ) }]).candidates
      = [{ index := 5, text := "stale", score := (1:ℚ) }].map (mkCandidate []) :=
  resolver_tolerates_bad_index [] { index := 5, text := "stale", score := (1:ℚ) }
    [{ index := 5, text := "stale", score := (1:ℚ) }] (by decide)

/-! ### Claim C7 -/

/-- C7 counterexample: the claim promises `cancel` returns false
(`accepted: false`, the 404 branch) for *every* unknown `requestId`, but
an empty-string id — unknown, since registered ids are never empty
(`service.py:112` substitutes a UUID for falsy ids) — takes the
`Missing request_id` 400 branch (`service.py:176-177`) instead. -/
theorem cancel_empty_id_not_reported_unknown :
    List.lookup "" [("abc", false)] = none ∧
    (llm_cancel [("abc", false)] (some "")).2 = CancelResp.badRequest ∧
    (llm_cancel [("abc", false)] (some "")).2 ≠ CancelResp.notFound := by
  decide

/-- C7 (amended): for every *non-empty* `requestId`, `cancel` returns
true and sets the session's cancellation flag when the id is currently
registered, and returns false — never raising and with no side effects —
when it is unknown or already terminal (deregistered); a missing or
empty `request_id` is instead rejected as a malformed request (400). -/
theorem cancel_known_and_unknown (reg : Registry) (id : String) (h : id ≠ "") :
    ((List.lookup id reg).isSome →
      (llm_cancel reg (some id)).2 = CancelResp.acceptedTrue ∧
      List.lookup id ((llm_cancel reg (some id)).1) = some true) ∧
    (List.lookup id reg = none →
      llm_cancel reg (some id) = (reg, CancelResp.notFound)) := by
  constructor
  · intro hs
    cases hl : List.lookup id reg with
    | none => rw [hl] at hs; simp at hs
    | some ev =>
      refine ⟨?_, ?_⟩
      · simp only [llm_cancel, if_neg h, hl]
      · simp only [llm_cancel, if_neg h, hl]
        exact lookup_setFlag reg id (by simp [hl])
  · intro hn
    simp only [llm_cancel, if_neg h, hn]

/-- C7 witness: a registered id is accepted and flagged; an unknown id is
reported unknown with the registry untouched. -/
theorem cancel_known_and_unknown_witness :
    (llm_cancel [("r1", false)] (some "r1")).2 = CancelResp.acceptedTrue ∧
    List.lookup "r1" ((llm_cancel [("r1", false)] (some "r1")).1) = some true ∧
    llm_cancel [("r1", false)] (some "zz") = ([("r1", false)], CancelResp.notFound) := by
  have h1 := (cancel_known_and_unknown [("r1", false)] "r1" (by decide)).1 (by decide)
  have h2 := (cancel_known_and_unknown [("r1", false)] "zz" (by decide)).2 (by decide)
  exact ⟨h1.1, h1.2, h2⟩

/-! ### Claim C8 -/

/-- C8: building the engine over a corpus of zero records fails at
construction time — `TfidfVectorizer.fit_transform` on zero texts raises
its empty-vocabulary `ValueError` inside `RAGEngine.__init__`
(`rag_engine.py:41,49`), the spec's `CorpusEmptyError` — and therefore
every query against such a corpus errors out before a `QueryAnswer` can
be produced (the lazy singleton at `rag_engine.py:79-86` forces the
construction on the first query). -/
theorem empty_corpus_build_fails :
    (∀ topK : Int, RAGEngine.build [] topK = Except.error BuildError.emptyVocabulary) ∧
    ∀ (sims : List ℚ) (tk : Option Int),
      handle_query_total [] sims tk = Except.error BuildError.emptyVocabulary := by
  constructor
  · intro topK
    rfl
  · intro sims tk
    rfl

/-! ### Claim C5 -/

/-- C5: a never-cancelled character-chunked streaming session for
message `M` emits exactly the chunk events whose payloads concatenate
back to `M` (no unit dropped, duplicated or reordered), followed by
exactly one `done` event and no `cancelled` event
(`service.py:95-99, 149-158`). -/
theorem stream_chars_reconstructs (m requestId : String) (reg : Registry) :
    (generate requestId
        (Except.ok { answer := m, matchText := none, score := 0, candidates := [] })
        RefinerCall.noBackend (fun _ => false) reg).1
      = (streamChunksChars m).map StreamEvent.chunk ++ [StreamEvent.done] ∧
    concatChunks ((generate requestId
        (Except.ok { answer := m, matchText := none, score := 0, candidates := [] })
        RefinerCall.noBackend (fun _ => false) reg).1) = m ∧
    countEv isDone ((generate requestId
        (Except.ok { answer := m, matchText := none, score := 0, candidates := [] })
        RefinerCall.noBackend (fun _ => false) reg).1) = 1 ∧
    countEv isCancelled ((generate requestId
        (Except.ok { answer := m, matchText := none, score := 0, candidates := [] })
        RefinerCall.noBackend (fun _ => false) reg).1) = 0 := by
  have hshape : (generate requestId
      (Except.ok { answer := m, matchText := none, score := 0, candidates := [] })
      RefinerCall.noBackend (fun _ => false) reg).1
        = (streamChunksChars m).map StreamEvent.chunk ++ [StreamEvent.done] := by
    have h0 := concat_generate_ok requestId
      { answer := m, matchText := none, score := 0, candidates := [] }
      RefinerCall.noBackend reg
    simpa [refineAnswer, pyOrS_empty_right] using h0
  refine ⟨hshape, ?_, ?_, ?_⟩
  · rw [hshape]
    unfold concatChunks
    rw [chunkPayloads_chunks_done]
    exact concat_streamChunksChars m
  · rw [hshape, countEv_append, countEv_map_chunk isDone _ (fun s => rfl)]
    rfl
  · rw [hshape, countEv_append, countEv_map_chunk isCancelled _ (fun s => rfl)]
    rfl

/-! ### Claim C6 -/

/-- C6: once the emitting worker observes the cancellation flag set
(first set observation `i0`, reached while chunks remain), the stream is
exactly the chunks emitted before the observation followed by a single
`cancelled` event — so exactly one `cancelled` event, no further chunk
events after it — and the `finally` block deregisters the session
(`service.py:149-160`). -/
theorem stream_cancel_terminal (requestId : String) (qa : QueryAnswer)
    (refiner : RefinerCall) (cancelAt : Nat → Bool) (reg : Registry) (i0 : Nat)
    (h1 : cancelAt i0 = true) (h2 : ∀ j, j < i0 → cancelAt j = false)
    (h3 : i0 < (streamChunksChars (refineAnswer (pyOrS qa.answer "") refiner)).length) :
    (generate requestId (Except.ok qa) refiner cancelAt reg).1
      = ((streamChunksChars (refineAnswer (pyOrS qa.answer "") refiner)).take i0).map
          StreamEvent.chunk ++ [StreamEvent.cancelled] ∧
    countEv isCancelled ((generate requestId (Except.ok qa) refiner cancelAt reg).1) = 1 ∧
    List.lookup requestId ((generate requestId (Except.ok qa) refiner cancelAt reg).2)
      = none := by
  have hshape : (generate requestId (Except.ok qa) refiner cancelAt reg).1
      = ((streamChunksChars (refineAnswer (pyOrS qa.answer "") refiner)).take i0).map
          StreamEvent.chunk ++ [StreamEvent.cancelled] := by
    show emitLoop cancelAt 0 (streamChunksChars (refineAnswer (pyOrS qa.answer "") refiner)) = _
    exact emitLoop_cancel cancelAt _ 0 i0 (by simpa using h1)
      (fun j hj => by simpa using h2 j hj) h3
  refine ⟨hshape, ?_, ?_⟩
  · rw [hshape, countEv_append, countEv_map_chunk isCancelled _ (fun s => rfl)]
    rfl
  · show List.lookup requestId (eraseId reg requestId) = none
    exact lookup_eraseId reg requestId

/-- C6 witness: message `"ab"`, flag first observed set at the second
check, session `"r1"` registered beforehand. -/
theorem stream_cancel_terminal_witness :
    (generate "r1" (Except.ok { answer := "ab", matchText := none, score := 0, candidates := [] })
        RefinerCall.noBackend (fun i => decide (1 ≤ i)) [("r1", false)]).1
      = [StreamEvent.chunk "a", StreamEvent.cancelled] ∧
    countEv isCancelled ((generate "r1"
        (Except.ok { answer := "ab", matchText := none, score := 0, candidates := [] })
        RefinerCall.noBackend (fun i => decide (1 ≤ i)) [("r1", false)]).1) = 1 ∧
    List.lookup "r1" ((generate "r1"
        (Except.ok { answer := "ab", matchText := none, score := 0, candidates := [] })
        RefinerCall.noBackend (fun i => decide (1 ≤ i)) [("r1", false)]).2) = none := by
  have h := stream_cancel_terminal "r1"
    { answer := "ab", matchText := none, score := 0, candidates := [] }
    RefinerCall.noBackend (fun i => decide (1 ≤ i)) [("r1", false)] 1
    (by decide) (by decide) (by decide)
  exact ⟨h.1.trans (by decide), h.2.1, h.2.2⟩

/-! ### Claim C9 -/

/-- C9: the streamed text is the refiner's output exactly when the
refinement call succeeded with non-empty extracted content, and the
resolver's fallback `answer` otherwise (backend absent, call raised, or
empty content); in every case no error event is surfaced
(`service.py:126-158`). -/
theorem refiner_replace_or_fallback (requestId fallback : String) (reg : Registry)
    (call : RefinerCall) :
    (∀ d, StreamEvent.ragError d ∉
      (generate requestId
        (Except.ok { answer := fallback, matchText := none, score := 0, candidates := [] })
        call (fun _ => false) reg).1) ∧
    (∀ resp, call = RefinerCall.returns resp → extractAssistant resp ≠ "" →
      concatChunks ((generate requestId
        (Except.ok { answer := fallback, matchText := none, score := 0, candidates := [] })
        call (fun _ => false) reg).1) = extractAssistant resp) ∧
    (∀ resp, call = RefinerCall.returns resp → extractAssistant resp = "" →
      concatChunks ((generate requestId
        (Except.ok { answer := fallback, matchText := none, score := 0, candidates := [] })
        call (fun _ => false) reg).1) = fallback) ∧
    (call = RefinerCall.raises →
      concatChunks ((generate requestId
        (Except.ok { answer := fallback, matchText := none, score := 0, candidates := [] })
        call (fun _ => false) reg).1) = fallback) ∧
    (call = RefinerCall.noBackend →
      concatChunks ((generate requestId
        (Except.ok { answer := fallback, matchText := none, score := 0, candidates := [] })
        call (fun _ => false) reg).1) = fallback) := by
  have hc : concatChunks ((generate requestId
      (Except.ok { answer := fallback, matchText := none, score := 0, candidates := [] })
      call (fun _ => false) reg).1) = refineAnswer fallback call := by
    have h0 := concatChunks_generate_ok requestId
      { answer := fallback, matchText := none, score := 0, candidates := [] } call reg
    simpa [pyOrS_empty_right] using h0
  refine ⟨?_, ?_, ?_, ?_, ?_⟩
  · intro d hd
    rw [concat_generate_ok] at hd
    rcases List.mem_append.mp hd with hmem | hmem
    · rcases List.mem_map.mp hmem with ⟨s, -, habs⟩
      exact StreamEvent.noConfusion habs
    · exact StreamEvent.noConfusion (List.mem_singleton.mp hmem)
  · intro resp hcall hne
    subst hcall
    rw [hc]
    show (if extractAssistant resp = "" then fallback else extractAssistant resp)
      = extractAssistant resp
    rw [if_neg hne]
  · intro resp hcall he
    subst hcall
    rw [hc]
    show (if extractAssistant resp = "" then fallback else extractAssistant resp) = fallback
    rw [if_pos he]
  · intro hcall
    subst hcall
    rw [hc]
    rfl
  · intro hcall
    subst hcall
    rw [hc]
    rfl

/-- C9 witness: a successful refinement with non-empty content replaces
the fallback. -/
theorem refiner_replace_or_fallback_witness :
    concatChunks ((generate "r9"
        (Except.ok { answer := "fallback answer", matchText := none, score := 0,
                     candidates := [] })
        (RefinerCall.returns (OllamaResp.dict (some "Refined.") none))
        (fun _ => false) []).1) = "Refined." :=
  ((refiner_replace_or_fallback "r9" "fallback answer" []
      (RefinerCall.returns (OllamaResp.dict (some "Refined.") none))).2.1
    (OllamaResp.dict (some "Refined.") none) rfl (by decide)).trans (by decide)

